import Mathlib

/-!
# hello_world.c : the instance / device / session / call lifecycle

A shallow embedding of `src/hello_world.c`.  The program is straight-line C
over the IREE runtime API; every runtime call is an effect on a `World`
(call trace, buffer-view heap, the call's input queue, the two output
streams) and every fallible call takes its status from an environment
`Env`, so that a theorem quantified over `Env` speaks about every
combination of outcomes.
-/

namespace HelloWorld

/-! ## Statuses -/

/-- The status handle `iree_status_t`, kept as its status code; code `0` is
`IREE_STATUS_OK`. -/
abbrev iree_status_t := Nat

/-- The C function `iree_ok_status()`. -/
def iree_ok_status : iree_status_t := 0

/-- The C macro `iree_status_is_ok(status)`. -/
def iree_status_is_ok (status : iree_status_t) : Bool := decide (status = 0)

/-- The C function `iree_status_code(status)`. -/
def iree_status_code (status : iree_status_t) : Nat := status

/-! ## Call sites -/

/-- The three buffer-view locals of `iree_runtime_demo_perform_mul`. -/
inductive Var
  | lhs
  | rhs
  | result
  deriving DecidableEq, Repr

/-- A runtime object pointer of `main` (instance, device, session): NULL or
the object the matching create call made. -/
inductive Handle
  | null
  | live
  deriving DecidableEq, Repr

/-- The runtime calls made by `hello_world.c`, one constructor per runtime
function; a buffer-view call names the local it is applied to, a release of
the session, the device or the instance carries the pointer it is handed. -/
inductive Op
  | instance_options_init
  | instance_options_use_all_available_drivers
  | instance_create
  | instance_driver_registry
  | instance_host_allocator
  | hal_create_device
  | session_options_init
  | session_create_with_device
  | session_append_bytecode_module_from_file
  | call_initialize_by_name
  | session_device_allocator
  | session_host_allocator
  | buffer_view_allocate_buffer (out : Var)
  | buffer_view_fprint (bv : Var)
  | call_inputs_push_back_buffer_view (bv : Var)
  | buffer_view_release (bv : Var)
  | call_invoke
  | call_outputs_pop_front_buffer_view
  | call_deinit
  | session_release (session : Handle)
  | hal_device_release (device : Handle)
  | instance_release (inst : Handle)
  | status_fprint
  | status_ignore
  deriving DecidableEq, Repr

/-! ## Buffer views -/

/-- The element types of `iree_hal_element_type_t` that matter here. -/
inductive iree_hal_element_type_t
  | INT_8
  | INT_32
  | FLOAT_16
  | FLOAT_32
  | FLOAT_64
  deriving DecidableEq, Repr

/-- Modelled from the spec: the bit width of an element type (the macro
`iree_hal_element_bit_count` of the runtime headers is not in the source);
"the element type's byte width" of a 32-bit float is four bytes. -/
def iree_hal_element_bit_count : iree_hal_element_type_t → Nat
  | .INT_8 => 8
  | .INT_32 => 32
  | .FLOAT_16 => 16
  | .FLOAT_32 => 32
  | .FLOAT_64 => 64

/-- Modelled from the spec: the byte width of one element of a dense
buffer. -/
def iree_hal_element_dense_byte_count (t : iree_hal_element_type_t) : Nat :=
  (iree_hal_element_bit_count t + 7) / 8

/-- The C type `iree_const_byte_span_t`: the wrapped host data and its byte
length.  The float data are kept as the decimal literals of the source; the
rounding of a literal to binary32 is not modelled. -/
structure iree_const_byte_span_t where
  data : List ℚ
  data_length : Nat

/-- The C function `iree_make_const_byte_span(data, data_length)`. -/
def iree_make_const_byte_span (data : List ℚ) (data_length : Nat) :
    iree_const_byte_span_t :=
  ⟨data, data_length⟩

/-- What a buffer view is: shape, element type and contents. -/
structure BufferView where
  shape : List Nat
  element_type : iree_hal_element_type_t
  contents : List ℚ

/-- A buffer view on the heap with its reference count. -/
structure HeapCell where
  view : BufferView
  refcount : Nat

/-- The arguments of one `iree_hal_buffer_view_allocate_buffer` call. -/
structure AllocRequest where
  shape_rank : Nat
  shape : List Nat
  element_type : iree_hal_element_type_t
  initial_data : iree_const_byte_span_t

/-- Modelled from the spec: the size validation of `allocateBuffer` (the
allocator is not in the source): "`initialData` byte length matches the
computed buffer size exactly", the computed size being "product(shape) ×
element-size". -/
def AllocRequest.size_matches (r : AllocRequest) : Bool :=
  decide (r.initial_data.data_length =
    r.shape.prod * iree_hal_element_dense_byte_count r.element_type)

/-! ## The world -/

/-- One item written to an output stream. -/
inductive Output
  | text (s : String)
  | buffer_view (id : Nat)
  | status (code : Nat)
  deriving DecidableEq, Repr

/-- Everything the program can observe or change. -/
structure World where
  /-- the runtime calls executed so far, oldest first -/
  trace : List Op
  /-- the buffer views created so far, indexed by handle -/
  heap : List HeapCell
  /-- a release was applied to a buffer view whose count was already zero -/
  over_release : Bool
  /-- the locals `lhs`, `rhs`, `result` (`none` is NULL) -/
  lhs : Option Nat
  rhs : Option Nat
  result : Option Nat
  /-- the buffer views retained by the input queue of `call`, in order -/
  call_inputs : List Nat
  /-- the input queue as it stood at each executed invoke -/
  invoke_inputs : List (List BufferView)
  /-- the arguments of each executed allocation -/
  alloc_requests : List AllocRequest
  /-- the device URI and the module path handed to the runtime -/
  device_uris : List (Option String)
  module_paths : List (Option String)
  stdout : List Output
  stderr : List Output
  /-- the references held on the instance, the device and the session -/
  instance_refs : Nat
  device_refs : Nat
  session_refs : Nat
  /-- a release was applied to an instance, device or session that had no
  reference left -/
  lifetime_over_release : Bool

/-- The world at process start. -/
def World.start : World :=
  ⟨[], [], false, none, none, none, [], [], [], [], [], [], [], 0, 0, 0, false⟩

/-- Reads a buffer-view local. -/
def World.getVar (w : World) : Var → Option Nat
  | .lhs => w.lhs
  | .rhs => w.rhs
  | .result => w.result

/-- Writes a buffer-view local. -/
def World.setVar (w : World) (v : Var) (h : Option Nat) : World :=
  match v with
  | .lhs => { w with lhs := h }
  | .rhs => { w with rhs := h }
  | .result => { w with result := h }

/-- The outcomes of the environment: the status every fallible runtime call
returns, and the buffer view the module function produces. -/
structure Env where
  status : Op → iree_status_t
  output : BufferView

/-- Programs over the world. -/
abbrev Rt := StateM World

/-- Appends a call to the trace. -/
def record (op : Op) : Rt Unit :=
  modify fun w => { w with trace := w.trace ++ [op] }

/-- The C call `fprintf(stdout, text)`. -/
def fprintf_stdout (text : String) : Rt Unit :=
  modify fun w => { w with stdout := w.stdout ++ [Output.text text] }

/-- The C call `fprintf(stderr, text)`. -/
def fprintf_stderr (text : String) : Rt Unit :=
  modify fun w => { w with stderr := w.stderr ++ [Output.text text] }

/-- The declaration `iree_hal_buffer_view_t* v = NULL;`. -/
def declare_null (v : Var) : Rt Unit :=
  modify fun w => w.setVar v none

/-! ## The runtime API, as far as the program observes it -/

/-- Adds one reference to the buffer view `id`. -/
def heap_retain (heap : List HeapCell) (id : Nat) : List HeapCell :=
  heap.modify (fun c => { c with refcount := c.refcount + 1 }) id

/-- Drops one reference of the buffer view `id`. -/
def heap_drop (heap : List HeapCell) (id : Nat) : List HeapCell :=
  heap.modify (fun c => { c with refcount := c.refcount - 1 }) id

/-- Whether the buffer view `id` still has a reference to drop. -/
def heap_alive (heap : List HeapCell) (id : Nat) : Bool :=
  match heap[id]? with
  | some c => decide (0 < c.refcount)
  | none => false

/-- The buffer view behind the handle `id`, when there is one. -/
def heap_view (heap : List HeapCell) (id : Nat) : Option BufferView :=
  (heap[id]?).map HeapCell.view

/-- Drops one reference of a buffer view in the world, noting a drop applied
to a view whose count is already zero. -/
def World.drop (w : World) (id : Nat) : World :=
  if heap_alive w.heap id then { w with heap := heap_drop w.heap id }
  else { w with over_release := true }

/-- Modelled from the spec: `iree_runtime_instance_options_initialize` (the
runtime is not in the source); it only fills the options struct. -/
def iree_runtime_instance_options_initialize : Rt Unit :=
  record .instance_options_init

/-- Modelled from the spec: `iree_runtime_instance_options_use_all_available_drivers`;
it only fills the options struct. -/
def iree_runtime_instance_options_use_all_available_drivers : Rt Unit :=
  record .instance_options_use_all_available_drivers

/-- Modelled from the spec: `create(options) -> Instance | Error`; on
success the caller owns one reference on the new instance, on failure the out
pointer stays NULL. -/
def iree_runtime_instance_create (env : Env) : Rt (iree_status_t × Handle) := do
  record .instance_create
  let status := env.status .instance_create
  if iree_status_is_ok status then
    modify fun w => { w with instance_refs := w.instance_refs + 1 }
  return (status, if iree_status_is_ok status then Handle.live else Handle.null)

/-- Modelled from the spec: the accessor of the instance's driver registry. -/
def iree_runtime_instance_driver_registry (inst : Handle) : Rt Handle := do
  record .instance_driver_registry
  return inst

/-- Modelled from the spec: the accessor of the instance's host allocator. -/
def iree_runtime_instance_host_allocator (inst : Handle) : Rt Handle := do
  record .instance_host_allocator
  return inst

/-- The C function `iree_make_cstring_view(str)`. -/
def iree_make_cstring_view (str : Option String) : Option String := str

/-- Modelled from the spec: `createDevice(registry, uriSelector,
hostAllocator) -> Device | Error`; on success the caller owns one reference
on the new device, on failure the out pointer stays NULL. -/
def iree_hal_create_device (env : Env) (_registry : Handle)
    (uri : Option String) (_host_allocator : Handle) :
    Rt (iree_status_t × Handle) := do
  record .hal_create_device
  modify fun w => { w with device_uris := w.device_uris ++ [uri] }
  let status := env.status .hal_create_device
  if iree_status_is_ok status then
    modify fun w => { w with device_refs := w.device_refs + 1 }
  return (status, if iree_status_is_ok status then Handle.live else Handle.null)

/-- Modelled from the spec: `iree_runtime_session_options_initialize`; it
only fills the options struct. -/
def iree_runtime_session_options_initialize : Rt Unit :=
  record .session_options_init

/-- Modelled from the spec: `create(instance, options, device,
hostAllocator) -> Session | Error`; on success the caller owns one reference
on the new session, on failure the out pointer stays NULL. -/
def iree_runtime_session_create_with_device (env : Env) (_inst : Handle)
    (_device : Handle) (_host_allocator : Handle) :
    Rt (iree_status_t × Handle) := do
  record .session_create_with_device
  let status := env.status .session_create_with_device
  if iree_status_is_ok status then
    modify fun w => { w with session_refs := w.session_refs + 1 }
  return (status, if iree_status_is_ok status then Handle.live else Handle.null)

/-- Modelled from the spec: `appendModuleFromFile(path) -> Ok | Error`. -/
def iree_runtime_session_append_bytecode_module_from_file (env : Env)
    (_session : Handle) (file_path : Option String) : Rt iree_status_t := do
  record .session_append_bytecode_module_from_file
  modify fun w => { w with module_paths := w.module_paths ++ [file_path] }
  return env.status .session_append_bytecode_module_from_file

/-- Modelled from the spec: `iree_runtime_session_release(session)` drops
one reference of the session it is handed and is a no-op on NULL; a release
of a session with no reference left is noted ("reference count must never go
negative"). -/
def iree_runtime_session_release (session : Handle) : Rt Unit := do
  record (.session_release session)
  modify fun w =>
    match session with
    | .null => w
    | .live =>
      if 0 < w.session_refs then { w with session_refs := w.session_refs - 1 }
      else { w with lifetime_over_release := true }

/-- Modelled from the spec: `iree_hal_device_release(device)` drops one
reference of the device it is handed and is a no-op on NULL; a release of a
device with no reference left is noted. -/
def iree_hal_device_release (device : Handle) : Rt Unit := do
  record (.hal_device_release device)
  modify fun w =>
    match device with
    | .null => w
    | .live =>
      if 0 < w.device_refs then { w with device_refs := w.device_refs - 1 }
      else { w with lifetime_over_release := true }

/-- Modelled from the spec: `iree_runtime_instance_release(instance)` drops
one reference of the instance it is handed and is a no-op on NULL; a release
of an instance with no reference left is noted. -/
def iree_runtime_instance_release (inst : Handle) : Rt Unit := do
  record (.instance_release inst)
  modify fun w =>
    match inst with
    | .null => w
    | .live =>
      if 0 < w.instance_refs then
        { w with instance_refs := w.instance_refs - 1 }
      else { w with lifetime_over_release := true }

/-- Modelled from the spec: `iree_status_fprint(stderr, status)`, the
"human-readable diagnostic ... written to the error stream". -/
def iree_status_fprint_stderr (status : iree_status_t) : Rt Unit := do
  record .status_fprint
  modify fun w =>
    { w with stderr := w.stderr ++ [Output.status (iree_status_code status)] }

/-- Modelled from the spec: `iree_status_ignore(status)` frees the status. -/
def iree_status_ignore (_status : iree_status_t) : Rt Unit :=
  record .status_ignore

/-- Modelled from the spec: the runtime macro `IREE_IGNORE_ERROR(expr)`
evaluates `expr` and frees the status it returns. -/
def IREE_IGNORE_ERROR (expr : Rt iree_status_t) : Rt Unit := do
  let _ ← expr
  return ()

/-- Modelled from the spec: `initializeByName(session, qualifiedName) ->
Call | Error`; a Call that was initialised starts with an empty input
queue. -/
def iree_runtime_call_initialize_by_name (env : Env) (_session : Handle)
    (_full_name : String) : Rt iree_status_t := do
  record .call_initialize_by_name
  let status := env.status .call_initialize_by_name
  if iree_status_is_ok status then
    modify fun w => { w with call_inputs := [] }
  return status

/-- Modelled from the spec: the accessor of the session's device
allocator. -/
def iree_runtime_session_device_allocator (session : Handle) : Rt Handle := do
  record .session_device_allocator
  return session

/-- Modelled from the spec: the accessor of the session's host allocator. -/
def iree_runtime_session_host_allocator (session : Handle) : Rt Handle := do
  record .session_host_allocator
  return session

/-- Modelled from the spec: `allocateBuffer(allocator, shape, elementType,
encoding, params, initialData) -> BufferView | Error`; on success the buffer
view is "returned and owned by the caller" with one reference, on failure
the out pointer keeps its value. -/
def iree_hal_buffer_view_allocate_buffer (env : Env) (_allocator : Handle)
    (shape_rank : Nat) (shape : List Nat)
    (element_type : iree_hal_element_type_t)
    (initial_data : iree_const_byte_span_t) (out : Var) : Rt iree_status_t := do
  record (.buffer_view_allocate_buffer out)
  modify fun w => { w with alloc_requests :=
    w.alloc_requests ++ [⟨shape_rank, shape, element_type, initial_data⟩] }
  let status := env.status (.buffer_view_allocate_buffer out)
  if iree_status_is_ok status then
    modify fun w =>
      { w.setVar out (some w.heap.length) with
        heap := w.heap ++ [⟨⟨shape, element_type, initial_data.data⟩, 1⟩] }
  return status

/-- Modelled from the spec: `iree_hal_buffer_view_fprint(stdout, bv,
max_element_count, host_allocator)`; the buffer view reaches the stream when
the call succeeds. -/
def iree_hal_buffer_view_fprint_stdout (env : Env) (bv : Var)
    (_max_element_count : Nat) (_host_allocator : Handle) :
    Rt iree_status_t := do
  record (.buffer_view_fprint bv)
  let status := env.status (.buffer_view_fprint bv)
  modify fun w => { w with stdout := w.stdout ++
    (if iree_status_is_ok status then
      (w.getVar bv).toList.map Output.buffer_view
    else []) }
  return status

/-- Modelled from the spec: `pushInput(call, bufferView) -> Ok | Error`;
on success the call "retains the buffer view" (one more reference) at the
back of its input queue. -/
def iree_runtime_call_inputs_push_back_buffer_view (env : Env) (bv : Var) :
    Rt iree_status_t := do
  record (.call_inputs_push_back_buffer_view bv)
  let status := env.status (.call_inputs_push_back_buffer_view bv)
  if iree_status_is_ok status then
    modify fun w =>
      match w.getVar bv with
      | some id =>
        { w with heap := heap_retain w.heap id,
                 call_inputs := w.call_inputs ++ [id] }
      | none => w
  return status

/-- Modelled from the spec: `iree_hal_buffer_view_release(bv)` drops one
reference and is a no-op on NULL. -/
def iree_hal_buffer_view_release (bv : Var) : Rt Unit := do
  record (.buffer_view_release bv)
  modify fun w =>
    match w.getVar bv with
    | some id => w.drop id
    | none => w

/-- Modelled from the spec: `invoke(call, flags) -> Ok | Error`; the input
queue the function is invoked with is noted. -/
def iree_runtime_call_invoke (env : Env) (_flags : Nat) : Rt iree_status_t := do
  record .call_invoke
  modify fun w => { w with invoke_inputs := w.invoke_inputs ++
    [w.call_inputs.filterMap (heap_view w.heap)] }
  return env.status .call_invoke

/-- Modelled from the spec: `popOutput(call) -> BufferView | Error`; on
success the out pointer receives a buffer view with one reference owned by
the caller, on failure it keeps its value. -/
def iree_runtime_call_outputs_pop_front_buffer_view (env : Env) (out : Var) :
    Rt iree_status_t := do
  record .call_outputs_pop_front_buffer_view
  let status := env.status .call_outputs_pop_front_buffer_view
  if iree_status_is_ok status then
    modify fun w =>
      { w.setVar out (some w.heap.length) with
        heap := w.heap ++ [⟨env.output, 1⟩] }
  return status

/-- Modelled from the spec: deinitialization "must release all retained
input/output buffer references exactly once". -/
def iree_runtime_call_deinitialize : Rt Unit := do
  record .call_deinit
  modify fun w => { w.call_inputs.foldl World.drop w with call_inputs := [] }

/-! ## hello_world.c -/

/-- The size of a C `float` in bytes. -/
def sizeof_float : Nat := 4

/-- The constant `lhs_shape` of the source. -/
def lhs_shape : List Nat := [4]

/-- The constant `lhs_data` of the source. -/
def lhs_data : List ℚ := [1.0, 1.1, 1.2, 1.3]

/-- The constant `rhs_shape` of the source. -/
def rhs_shape : List Nat := [4]

/-- The constant `rhs_data` of the source. -/
def rhs_data : List ℚ := [10.0, 100.0, 1000.0, 10000.0]

/-- The C macro `IREE_ARRAYSIZE(arr)`. -/
def IREE_ARRAYSIZE {α : Type} (arr : List α) : Nat := arr.length

/-- The C expression `sizeof(arr)` of an array of floats. -/
def sizeof_float_array (arr : List ℚ) : Nat := arr.length * sizeof_float

/-- The C function `iree_runtime_demo_perform_mul(session)`.  The local
`call` lives in the world (`call_inputs`), as do `lhs`, `rhs` and `result`,
which the runtime calls reach through their address or value. -/
def iree_runtime_demo_perform_mul (env : Env) (session : Handle) :
    Rt iree_status_t := do
  -- IREE_RETURN_IF_ERROR(iree_runtime_call_initialize_by_name(...));
  let init_status ←
    iree_runtime_call_initialize_by_name env session "module.simple_mul"
  if !iree_status_is_ok init_status then
    return init_status
  let device_allocator ← iree_runtime_session_device_allocator session
  let host_allocator ← iree_runtime_session_host_allocator session
  let mut status := iree_ok_status
  if iree_status_is_ok status then
    declare_null .lhs
    if iree_status_is_ok status then
      status ← iree_hal_buffer_view_allocate_buffer env device_allocator
        (IREE_ARRAYSIZE lhs_shape) lhs_shape .FLOAT_32
        (iree_make_const_byte_span lhs_data (sizeof_float_array lhs_data)) .lhs
    if iree_status_is_ok status then
      IREE_IGNORE_ERROR
        (iree_hal_buffer_view_fprint_stdout env .lhs 4096 host_allocator)
      status ← iree_runtime_call_inputs_push_back_buffer_view env .lhs
    iree_hal_buffer_view_release .lhs
    fprintf_stdout "\n * \n"
    declare_null .rhs
    if iree_status_is_ok status then
      status ← iree_hal_buffer_view_allocate_buffer env device_allocator
        (IREE_ARRAYSIZE rhs_shape) rhs_shape .FLOAT_32
        (iree_make_const_byte_span rhs_data (sizeof_float_array rhs_data)) .rhs
    if iree_status_is_ok status then
      IREE_IGNORE_ERROR
        (iree_hal_buffer_view_fprint_stdout env .rhs 4096 host_allocator)
      status ← iree_runtime_call_inputs_push_back_buffer_view env .rhs
    iree_hal_buffer_view_release .rhs
  if iree_status_is_ok status then
    status ← iree_runtime_call_invoke env 0
  fprintf_stdout "\n = \n"
  declare_null .result
  if iree_status_is_ok status then
    status ← iree_runtime_call_outputs_pop_front_buffer_view env .result
  if iree_status_is_ok status then
    status ← iree_hal_buffer_view_fprint_stdout env .result 4096 host_allocator
  iree_hal_buffer_view_release .result
  iree_runtime_call_deinitialize
  return status

/-- The C function `main(argc, argv)`; `argv[i]` past the end of the
argument vector reads as NULL. -/
def main (env : Env) (argc : Int) (argv : List String) : Rt Int := do
  if argc < 2 then
    fprintf_stderr "usage: hello_world device module.vmfb\n"
    return 1
  let device_uri := argv[1]?
  let module_path := argv[2]?
  iree_runtime_instance_options_initialize
  iree_runtime_instance_options_use_all_available_drivers
  let created ← iree_runtime_instance_create env
  let inst := created.2
  let mut status := created.1
  let mut device := Handle.null
  if iree_status_is_ok status then
    let registry ← iree_runtime_instance_driver_registry inst
    let host_allocator ← iree_runtime_instance_host_allocator inst
    let r ← iree_hal_create_device env registry
      (iree_make_cstring_view device_uri) host_allocator
    status := r.1
    device := r.2
  let mut session := Handle.null
  if iree_status_is_ok status then
    iree_runtime_session_options_initialize
    let host_allocator ← iree_runtime_instance_host_allocator inst
    let r ← iree_runtime_session_create_with_device env inst device
      host_allocator
    status := r.1
    session := r.2
  if iree_status_is_ok status then
    status ← iree_runtime_session_append_bytecode_module_from_file env session
      module_path
  if iree_status_is_ok status then
    status ← iree_runtime_demo_perform_mul env session
  iree_runtime_session_release session
  iree_hal_device_release device
  iree_runtime_instance_release inst
  let ret : Int := (iree_status_code status : Int)
  if !iree_status_is_ok status then
    iree_status_fprint_stderr status
    iree_status_ignore status
  return ret

/-- Runs `main` from process start. -/
def run_main (env : Env) (argc : Int) (argv : List String) : Int × World :=
  main env argc argv World.start

/-- Runs `iree_runtime_demo_perform_mul` from the world `w`. -/
def run_perform_mul (env : Env) (session : Handle) (w : World) :
    iree_status_t × World :=
  iree_runtime_demo_perform_mul env session w

/-! ## Vocabulary of the properties -/

/-- An environment in which every runtime call succeeds. -/
def all_ok : Env :=
  ⟨fun _ => 0, ⟨[4], .FLOAT_32, [10.0, 110.0, 1200.0, 13000.0]⟩⟩

/-- As `all_ok`, except that printing `lhs` fails with status 3. -/
def lhs_print_fails : Env :=
  ⟨fun op => if op = .buffer_view_fprint .lhs then 3 else 0, all_ok.output⟩

/-- As `all_ok`, except that the device creation fails with status 5. -/
def device_create_fails : Env :=
  ⟨fun op => if op = .hal_create_device then 5 else 0, all_ok.output⟩

/-- As `all_ok`, except that pushing `rhs` fails with status 9. -/
def rhs_push_fails : Env :=
  ⟨fun op => if op = .call_inputs_push_back_buffer_view .rhs then 9 else 0,
    all_ok.output⟩

/-- As `all_ok`, except that the session creation fails with status 7. -/
def session_create_fails : Env :=
  ⟨fun op => if op = .session_create_with_device then 7 else 0, all_ok.output⟩

/-- An argument vector with both positional arguments. -/
def demo_argv : List String :=
  ["hello_world", "local-sync", "simple_mul.vmfb"]

/-- The first status of a list that is not OK, `0` when all are OK. -/
def first_failed : List iree_status_t → iree_status_t
  | [] => 0
  | st :: rest => if st = 0 then first_failed rest else st

/-- The status of the first call of a chain that fails, `0` when none does. -/
def first_failure_status (env : Env) : List Op → iree_status_t
  | [] => 0
  | op :: rest =>
    if env.status op = 0 then first_failure_status env rest else env.status op

/-- The number of calls of a chain that succeed before the first failure. -/
def progress (env : Env) : List Op → Nat
  | [] => 0
  | op :: rest => if env.status op = 0 then progress env rest + 1 else 0

/-- The calls of a chain up to and including the first one that fails. -/
def through_first_failure (env : Env) : List Op → List Op
  | [] => []
  | op :: rest =>
    op :: (if env.status op = 0 then through_first_failure env rest else [])

/-- The fallible calls of `main` whose status is carried in `status`. -/
def main_chain : List Op :=
  [.instance_create, .hal_create_device, .session_create_with_device,
   .session_append_bytecode_module_from_file]

/-- The fallible calls of `iree_runtime_demo_perform_mul` whose status is
carried in `status`, in program order. -/
def mul_chain : List Op :=
  [.call_initialize_by_name, .buffer_view_allocate_buffer .lhs,
   .call_inputs_push_back_buffer_view .lhs, .buffer_view_allocate_buffer .rhs,
   .call_inputs_push_back_buffer_view .rhs, .call_invoke,
   .call_outputs_pop_front_buffer_view, .buffer_view_fprint .result]

/-- The whole sequence: instance create, device create, session create,
module append, call initialize, allocate lhs, push lhs, allocate rhs, push
rhs, invoke, pop output, print result. -/
def call_chain : List Op := main_chain ++ mul_chain

/-- The three releases at the end of `main`. -/
def is_lifetime_release : Op → Bool
  | .session_release _ => true
  | .hal_device_release _ => true
  | .instance_release _ => true
  | _ => false

/-- The releases of a session. -/
def is_session_release : Op → Bool
  | .session_release _ => true
  | _ => false

/-- The pointer `main` holds in `instance` once the creation chain is over:
the instance that was created, NULL when the creation failed. -/
def held_instance (env : Env) : Handle :=
  if env.status .instance_create = 0 then .live else .null

/-- The pointer `main` holds in `device` once the creation chain is over: the
device that was created, NULL when its creation failed or was skipped. -/
def held_device (env : Env) : Handle :=
  if env.status .instance_create = 0 ∧ env.status .hal_create_device = 0 then
    .live
  else .null

/-- The pointer `main` holds in `session` once the creation chain is over:
the session that was created, NULL when its creation failed or was
skipped. -/
def held_session (env : Env) : Handle :=
  if env.status .instance_create = 0 ∧ env.status .hal_create_device = 0 ∧
      env.status .session_create_with_device = 0 then
    .live
  else .null

/-- Whether a call works on the instance, the device or the session, or on
something obtained from them (allocators, the call, buffer views); the calls
left out only fill an options struct or handle a status. -/
def on_runtime_object : Op → Bool
  | .instance_options_init => false
  | .instance_options_use_all_available_drivers => false
  | .session_options_init => false
  | .status_fprint => false
  | .status_ignore => false
  | _ => true

/-- The calls that operate on the `iree_runtime_call_t`. -/
def is_call_op : Op → Bool
  | .call_initialize_by_name => true
  | .call_inputs_push_back_buffer_view _ => true
  | .call_invoke => true
  | .call_outputs_pop_front_buffer_view => true
  | .call_deinit => true
  | _ => false

/-- The pushes onto the input queue. -/
def is_push : Op → Bool
  | .call_inputs_push_back_buffer_view _ => true
  | _ => false

/-- The buffer-view allocations. -/
def is_allocation : Op → Bool
  | .buffer_view_allocate_buffer _ => true
  | _ => false

/-- The states of a Call in the spec. -/
inductive CallState
  | Uninitialized
  | Initialized
  | AcceptingInputs
  | Invoked
  | OutputsAvailable
  | Deinitialized
  deriving DecidableEq, Repr

/-- Modelled from the spec: the Call state machine `Uninitialized →
Initialized → AcceptingInputs → Invoked → OutputsAvailable →
Deinitialized` (the runtime is not in the source).  "Pushing inputs is only
legal in `Initialized`/`AcceptingInputs`; invoking transitions to `Invoked`
and, on success, to `OutputsAvailable`; deinitialization is legal from any
state" a Call has reached by initialization.  An operation that is not legal
has no successor; a call that does not touch the Call leaves the state. -/
def call_step (env : Env) (st : CallState) (op : Op) : Option CallState :=
  if is_call_op op then
    match st, op with
    | .Uninitialized, .call_initialize_by_name =>
      some (if env.status op = 0 then .Initialized else .Uninitialized)
    | .Initialized, .call_inputs_push_back_buffer_view _ =>
      some (if env.status op = 0 then .AcceptingInputs else .Initialized)
    | .AcceptingInputs, .call_inputs_push_back_buffer_view _ =>
      some .AcceptingInputs
    | .Initialized, .call_invoke =>
      some (if env.status op = 0 then .OutputsAvailable else .Invoked)
    | .AcceptingInputs, .call_invoke =>
      some (if env.status op = 0 then .OutputsAvailable else .Invoked)
    | .OutputsAvailable, .call_outputs_pop_front_buffer_view =>
      some .OutputsAvailable
    | .Initialized, .call_deinit => some .Deinitialized
    | .AcceptingInputs, .call_deinit => some .Deinitialized
    | .Invoked, .call_deinit => some .Deinitialized
    | .OutputsAvailable, .call_deinit => some .Deinitialized
    | _, _ => none
  else some st

/-- Runs the Call state machine over a sequence of calls; `none` when some
call is not legal in the state it meets. -/
def call_run (env : Env) : CallState → List Op → Option CallState
  | st, [] => some st
  | st, op :: rest =>
    match call_step env st op with
    | some st' => call_run env st' rest
    | none => none

/-- The calls `iree_runtime_demo_perform_mul` executes when run from `w`. -/
def perform_mul_calls (env : Env) (session : Handle) (w : World) : List Op :=
  (run_perform_mul env session w).2.trace.drop w.trace.length

/-- The input queues `iree_runtime_demo_perform_mul` invokes with when run
from `w`, one per executed invoke. -/
def perform_mul_invocations (env : Env) (session : Handle) (w : World) :
    List (List BufferView) :=
  (run_perform_mul env session w).2.invoke_inputs.drop w.invoke_inputs.length

/-- The allocation requests `iree_runtime_demo_perform_mul` makes when run
from `w`. -/
def perform_mul_requests (env : Env) (session : Handle) (w : World) :
    List AllocRequest :=
  (run_perform_mul env session w).2.alloc_requests.drop w.alloc_requests.length

/-- The buffer views `iree_runtime_demo_perform_mul` creates when run from
`w`. -/
def perform_mul_created (env : Env) (session : Handle) (w : World) :
    List HeapCell :=
  (run_perform_mul env session w).2.heap.drop w.heap.length

/-! ## Closed forms of the two functions

`mul_ops k` and `mul_world env w k` spell out what
`iree_runtime_demo_perform_mul` does when the first `k` calls of `mul_chain`
succeed; `perform_mul_eq` proves that this is what the function computes. -/

/-- The buffer view allocated for `lhs`. -/
def lhs_view : BufferView := ⟨lhs_shape, .FLOAT_32, lhs_data⟩

/-- The buffer view allocated for `rhs`. -/
def rhs_view : BufferView := ⟨rhs_shape, .FLOAT_32, rhs_data⟩

/-- The allocation request for `lhs`. -/
def lhs_request : AllocRequest := ⟨1, lhs_shape, .FLOAT_32, ⟨lhs_data, 16⟩⟩

/-- The allocation request for `rhs`. -/
def rhs_request : AllocRequest := ⟨1, rhs_shape, .FLOAT_32, ⟨rhs_data, 16⟩⟩

/-- The calls executed by `iree_runtime_demo_perform_mul` when the first `k`
calls of `mul_chain` succeed. -/
def mul_ops (k : Nat) : List Op :=
  [.call_initialize_by_name] ++
  (if 1 ≤ k then
    [.session_device_allocator, .session_host_allocator,
     .buffer_view_allocate_buffer .lhs] ++
    (if 2 ≤ k then
      [.buffer_view_fprint .lhs, .call_inputs_push_back_buffer_view .lhs]
     else []) ++
    [.buffer_view_release .lhs] ++
    (if 3 ≤ k then [.buffer_view_allocate_buffer .rhs] else []) ++
    (if 4 ≤ k then
      [.buffer_view_fprint .rhs, .call_inputs_push_back_buffer_view .rhs]
     else []) ++
    [.buffer_view_release .rhs] ++
    (if 5 ≤ k then [.call_invoke] else []) ++
    (if 6 ≤ k then [.call_outputs_pop_front_buffer_view] else []) ++
    (if 7 ≤ k then [.buffer_view_fprint .result] else []) ++
    [.buffer_view_release .result, .call_deinit]
   else [])

/-- The world `iree_runtime_demo_perform_mul` leaves when it is run from `w`
and the first `k` calls of `mul_chain` succeed. -/
def mul_world (env : Env) (w : World) (k : Nat) : World :=
  if k = 0 then { w with trace := w.trace ++ mul_ops 0 }
  else
    { trace := w.trace ++ mul_ops k
      heap := w.heap ++ (if 2 ≤ k then [⟨lhs_view, 0⟩] else []) ++
        (if 4 ≤ k then [⟨rhs_view, 0⟩] else []) ++
        (if 7 ≤ k then [⟨env.output, 0⟩] else [])
      over_release := w.over_release
      lhs := if 2 ≤ k then some w.heap.length else none
      rhs := if 4 ≤ k then some (w.heap.length + 1) else none
      result := if 7 ≤ k then some (w.heap.length + 2) else none
      call_inputs := []
      invoke_inputs := w.invoke_inputs ++
        (if 5 ≤ k then [[lhs_view, rhs_view]] else [])
      alloc_requests := w.alloc_requests ++ [lhs_request] ++
        (if 3 ≤ k then [rhs_request] else [])
      device_uris := w.device_uris
      module_paths := w.module_paths
      stdout := w.stdout ++
        (if 2 ≤ k ∧ env.status (.buffer_view_fprint .lhs) = 0 then
          [Output.buffer_view w.heap.length] else []) ++
        [Output.text "\n * \n"] ++
        (if 4 ≤ k ∧ env.status (.buffer_view_fprint .rhs) = 0 then
          [Output.buffer_view (w.heap.length + 1)] else []) ++
        [Output.text "\n = \n"] ++
        (if 8 ≤ k then [Output.buffer_view (w.heap.length + 2)] else [])
      stderr := w.stderr
      instance_refs := w.instance_refs
      device_refs := w.device_refs
      session_refs := w.session_refs
      lifetime_over_release := w.lifetime_over_release }

/-- The calls executed by `main` before `iree_runtime_demo_perform_mul` when
the first `j` calls of `main_chain` succeed. -/
def main_ops (j : Nat) : List Op :=
  [.instance_options_init, .instance_options_use_all_available_drivers,
   .instance_create] ++
  (if 1 ≤ j then
    [.instance_driver_registry, .instance_host_allocator, .hal_create_device]
   else []) ++
  (if 2 ≤ j then
    [.session_options_init, .instance_host_allocator,
     .session_create_with_device]
   else []) ++
  (if 3 ≤ j then [.session_append_bytecode_module_from_file] else [])

/-- The world `main` leaves when the argument check passes. -/
def main_world (env : Env) (argv : List String) : World :=
  let j := progress env main_chain
  let status := first_failure_status env (main_chain ++ mul_chain)
  let w1 : World :=
    { World.start with
      trace := main_ops j
      device_uris := if 1 ≤ j then [argv[1]?] else []
      module_paths := if 3 ≤ j then [argv[2]?] else [] }
  let w2 := if j = 4 then mul_world env w1 (progress env mul_chain) else w1
  { w2 with
    trace := w2.trace ++
      [.session_release (if 3 ≤ j then .live else .null),
       .hal_device_release (if 2 ≤ j then .live else .null),
       .instance_release (if 1 ≤ j then .live else .null)] ++
      (if status = 0 then [] else [.status_fprint, .status_ignore])
    stderr := if status = 0 then [] else [Output.status status] }

/-! ## Symbolic execution -/

/-- Modifying a cell past a prefix leaves the prefix alone. -/
theorem heap_modify_append (f : HeapCell → HeapCell) (l r : List HeapCell) (k : Nat) :
    List.modify f (l.length + k) (l ++ r) = l ++ List.modify f k r := by
  induction l with
  | nil => simp
  | cons a l ih =>
    have : (a :: l).length + k = (l.length + k) + 1 := by simp; omega
    rw [this]
    simp [List.modify_succ_cons, ih]

@[simp]
theorem heap_alive_nil (k : Nat) : heap_alive [] k = false := by
  simp [heap_alive]

@[simp]
theorem heap_alive_cons_zero (c : HeapCell) (t : List HeapCell) :
    heap_alive (c :: t) 0 = decide (0 < c.refcount) := by
  simp [heap_alive]

@[simp]
theorem heap_alive_cons_succ (c : HeapCell) (t : List HeapCell) (k : Nat) :
    heap_alive (c :: t) (k + 1) = heap_alive t k := by
  simp [heap_alive]

@[simp]
theorem heap_alive_append (l r : List HeapCell) (k : Nat) :
    heap_alive (l ++ r) (l.length + k) = heap_alive r k := by
  simp [heap_alive, List.getElem?_append_right]

@[simp]
theorem heap_alive_append_zero (l r : List HeapCell) :
    heap_alive (l ++ r) l.length = heap_alive r 0 := by
  simpa using heap_alive_append l r 0

@[simp]
theorem heap_drop_append (l r : List HeapCell) (k : Nat) :
    heap_drop (l ++ r) (l.length + k) = l ++ heap_drop r k := by
  simp [heap_drop, heap_modify_append]

@[simp]
theorem heap_drop_append_zero (l r : List HeapCell) :
    heap_drop (l ++ r) l.length = l ++ heap_drop r 0 := by
  simpa using heap_drop_append l r 0

@[simp]
theorem heap_drop_cons_zero (c : HeapCell) (t : List HeapCell) :
    heap_drop (c :: t) 0 = { c with refcount := c.refcount - 1 } :: t := by
  simp [heap_drop]

@[simp]
theorem heap_drop_cons_succ (c : HeapCell) (t : List HeapCell) (k : Nat) :
    heap_drop (c :: t) (k + 1) = c :: heap_drop t k := by
  simp [heap_drop, List.modify_succ_cons]

@[simp]
theorem heap_view_nil (k : Nat) : heap_view [] k = none := by
  simp [heap_view]

@[simp]
theorem heap_view_cons_zero (c : HeapCell) (t : List HeapCell) :
    heap_view (c :: t) 0 = some c.view := by
  simp [heap_view]

@[simp]
theorem heap_view_cons_succ (c : HeapCell) (t : List HeapCell) (k : Nat) :
    heap_view (c :: t) (k + 1) = heap_view t k := by
  simp [heap_view]

@[simp]
theorem heap_view_append (l r : List HeapCell) (k : Nat) :
    heap_view (l ++ r) (l.length + k) = heap_view r k := by
  simp [heap_view, List.getElem?_append_right]

@[simp]
theorem heap_view_append_zero (l r : List HeapCell) :
    heap_view (l ++ r) l.length = heap_view r 0 := by
  simpa using heap_view_append l r 0

@[simp]
theorem heap_retain_append (l r : List HeapCell) (k : Nat) :
    heap_retain (l ++ r) (l.length + k) = l ++ heap_retain r k := by
  simp [heap_retain, heap_modify_append]

@[simp]
theorem heap_retain_append_zero (l r : List HeapCell) :
    heap_retain (l ++ r) l.length = l ++ heap_retain r 0 := by
  simpa using heap_retain_append l r 0

@[simp]
theorem heap_retain_cons_zero (c : HeapCell) (t : List HeapCell) :
    heap_retain (c :: t) 0 = { c with refcount := c.refcount + 1 } :: t := by
  simp [heap_retain]

@[simp]
theorem heap_retain_cons_succ (c : HeapCell) (t : List HeapCell) (k : Nat) :
    heap_retain (c :: t) (k + 1) = c :: heap_retain t k := by
  simp [heap_retain, List.modify_succ_cons]

/-- Case analysis on where the chain of `iree_runtime_demo_perform_mul`
first fails: one case per call of `mul_chain`, and one where all succeed. -/
theorem perform_mul_cases (env : Env) (P : Prop)
    (h0 : env.status .call_initialize_by_name ≠ 0 → P)
    (h1 : env.status .call_initialize_by_name = 0 →
      env.status (.buffer_view_allocate_buffer .lhs) ≠ 0 → P)
    (h2 : env.status .call_initialize_by_name = 0 →
      env.status (.buffer_view_allocate_buffer .lhs) = 0 →
      env.status (.call_inputs_push_back_buffer_view .lhs) ≠ 0 → P)
    (h3 : env.status .call_initialize_by_name = 0 →
      env.status (.buffer_view_allocate_buffer .lhs) = 0 →
      env.status (.call_inputs_push_back_buffer_view .lhs) = 0 →
      env.status (.buffer_view_allocate_buffer .rhs) ≠ 0 → P)
    (h4 : env.status .call_initialize_by_name = 0 →
      env.status (.buffer_view_allocate_buffer .lhs) = 0 →
      env.status (.call_inputs_push_back_buffer_view .lhs) = 0 →
      env.status (.buffer_view_allocate_buffer .rhs) = 0 →
      env.status (.call_inputs_push_back_buffer_view .rhs) ≠ 0 → P)
    (h5 : env.status .call_initialize_by_name = 0 →
      env.status (.buffer_view_allocate_buffer .lhs) = 0 →
      env.status (.call_inputs_push_back_buffer_view .lhs) = 0 →
      env.status (.buffer_view_allocate_buffer .rhs) = 0 →
      env.status (.call_inputs_push_back_buffer_view .rhs) = 0 →
      env.status .call_invoke ≠ 0 → P)
    (h6 : env.status .call_initialize_by_name = 0 →
      env.status (.buffer_view_allocate_buffer .lhs) = 0 →
      env.status (.call_inputs_push_back_buffer_view .lhs) = 0 →
      env.status (.buffer_view_allocate_buffer .rhs) = 0 →
      env.status (.call_inputs_push_back_buffer_view .rhs) = 0 →
      env.status .call_invoke = 0 →
      env.status .call_outputs_pop_front_buffer_view ≠ 0 → P)
    (h7 : env.status .call_initialize_by_name = 0 →
      env.status (.buffer_view_allocate_buffer .lhs) = 0 →
      env.status (.call_inputs_push_back_buffer_view .lhs) = 0 →
      env.status (.buffer_view_allocate_buffer .rhs) = 0 →
      env.status (.call_inputs_push_back_buffer_view .rhs) = 0 →
      env.status .call_invoke = 0 →
      env.status .call_outputs_pop_front_buffer_view = 0 →
      env.status (.buffer_view_fprint .result) ≠ 0 → P)
    (h8 : env.status .call_initialize_by_name = 0 →
      env.status (.buffer_view_allocate_buffer .lhs) = 0 →
      env.status (.call_inputs_push_back_buffer_view .lhs) = 0 →
      env.status (.buffer_view_allocate_buffer .rhs) = 0 →
      env.status (.call_inputs_push_back_buffer_view .rhs) = 0 →
      env.status .call_invoke = 0 →
      env.status .call_outputs_pop_front_buffer_view = 0 →
      env.status (.buffer_view_fprint .result) = 0 → P) : P := by
  by_cases e0 : env.status .call_initialize_by_name = 0
  · by_cases e1 : env.status (.buffer_view_allocate_buffer .lhs) = 0
    · by_cases e2 : env.status (.call_inputs_push_back_buffer_view .lhs) = 0
      · by_cases e3 : env.status (.buffer_view_allocate_buffer .rhs) = 0
        · by_cases e4 : env.status (.call_inputs_push_back_buffer_view .rhs) = 0
          · by_cases e5 : env.status .call_invoke = 0
            · by_cases e6 : env.status .call_outputs_pop_front_buffer_view = 0
              · by_cases e7 : env.status (.buffer_view_fprint .result) = 0
                · exact h8 e0 e1 e2 e3 e4 e5 e6 e7
                · exact h7 e0 e1 e2 e3 e4 e5 e6 e7
              · exact h6 e0 e1 e2 e3 e4 e5 e6
            · exact h5 e0 e1 e2 e3 e4 e5
          · exact h4 e0 e1 e2 e3 e4
        · exact h3 e0 e1 e2 e3
      · exact h2 e0 e1 e2
    · exact h1 e0 e1
  · exact h0 e0

/-- Case analysis on where the chain of `main` first fails before
`iree_runtime_demo_perform_mul` is reached. -/
theorem main_cases (env : Env) (P : Prop)
    (h0 : env.status .instance_create ≠ 0 → P)
    (h1 : env.status .instance_create = 0 →
      env.status .hal_create_device ≠ 0 → P)
    (h2 : env.status .instance_create = 0 →
      env.status .hal_create_device = 0 →
      env.status .session_create_with_device ≠ 0 → P)
    (h3 : env.status .instance_create = 0 →
      env.status .hal_create_device = 0 →
      env.status .session_create_with_device = 0 →
      env.status .session_append_bytecode_module_from_file ≠ 0 → P)
    (h4 : env.status .instance_create = 0 →
      env.status .hal_create_device = 0 →
      env.status .session_create_with_device = 0 →
      env.status .session_append_bytecode_module_from_file = 0 → P) : P := by
  by_cases e0 : env.status .instance_create = 0
  · by_cases e1 : env.status .hal_create_device = 0
    · by_cases e2 : env.status .session_create_with_device = 0
      · by_cases e3 : env.status .session_append_bytecode_module_from_file = 0
        · exact h4 e0 e1 e2 e3
        · exact h3 e0 e1 e2 e3
      · exact h2 e0 e1 e2
    · exact h1 e0 e1
  · exact h0 e0

theorem lhs_data_length : lhs_data.length = 4 := rfl

theorem rhs_data_length : rhs_data.length = 4 := rfl

set_option maxHeartbeats 4000000 in
/-- What `iree_runtime_demo_perform_mul` computes, in closed form. -/
theorem perform_mul_eq (env : Env) (s : Handle) (w : World) :
    iree_runtime_demo_perform_mul env s w =
      (first_failure_status env mul_chain,
        mul_world env w (progress env mul_chain)) := by
  apply perform_mul_cases env <;> intros <;>
  simp [*, iree_runtime_demo_perform_mul, iree_runtime_call_initialize_by_name,
    record, iree_status_is_ok, bind, StateT.bind, pure, StateT.pure, modify,
    modifyGet, MonadStateOf.modifyGet, StateT.modifyGet,
    iree_runtime_session_device_allocator, iree_runtime_session_host_allocator,
    iree_ok_status, declare_null, iree_hal_buffer_view_allocate_buffer,
    iree_hal_buffer_view_release, fprintf_stdout, World.setVar, World.getVar,
    iree_runtime_call_deinitialize, iree_hal_buffer_view_fprint_stdout,
    IREE_IGNORE_ERROR, iree_runtime_call_inputs_push_back_buffer_view,
    iree_runtime_call_invoke, iree_runtime_call_outputs_pop_front_buffer_view,
    World.drop, first_failure_status, mul_chain, lhs_view, rhs_view,
    iree_make_const_byte_span, progress, mul_world, mul_ops, lhs_request,
    rhs_request, IREE_ARRAYSIZE, sizeof_float_array, sizeof_float, lhs_shape,
    rhs_shape, lhs_data_length, rhs_data_length]

set_option maxHeartbeats 4000000 in
/-- What `main` computes when the argument check passes, in closed form. -/
theorem run_main_eq (env : Env) (argc : Int) (argv : List String)
    (hargs : ¬ argc < 2) :
    run_main env argc argv =
      (((first_failure_status env (main_chain ++ mul_chain) : Nat) : Int),
        main_world env argv) := by
  apply main_cases env <;> intros
  case h4 =>
    apply perform_mul_cases env <;> intros <;>
    simp [*, run_main, main, perform_mul_eq, record, iree_status_is_ok, bind,
      StateT.bind, pure, StateT.pure, modify, modifyGet,
      MonadStateOf.modifyGet, StateT.modifyGet, fprintf_stderr,
      iree_runtime_instance_options_initialize,
      iree_runtime_instance_options_use_all_available_drivers,
      iree_runtime_instance_create, iree_runtime_instance_driver_registry,
      iree_runtime_instance_host_allocator, iree_make_cstring_view,
      iree_hal_create_device, iree_runtime_session_options_initialize,
      iree_runtime_session_create_with_device,
      iree_runtime_session_append_bytecode_module_from_file,
      iree_runtime_session_release, iree_hal_device_release,
      iree_runtime_instance_release, iree_status_fprint_stderr,
      iree_status_ignore, iree_status_code, main_world, main_chain, main_ops,
      progress, first_failure_status, World.start, mul_chain, mul_world,
      mul_ops]
  all_goals
    simp [*, run_main, main, perform_mul_eq, record, iree_status_is_ok, bind,
      StateT.bind, pure, StateT.pure, modify, modifyGet,
      MonadStateOf.modifyGet, StateT.modifyGet, fprintf_stderr,
      iree_runtime_instance_options_initialize,
      iree_runtime_instance_options_use_all_available_drivers,
      iree_runtime_instance_create, iree_runtime_instance_driver_registry,
      iree_runtime_instance_host_allocator, iree_make_cstring_view,
      iree_hal_create_device, iree_runtime_session_options_initialize,
      iree_runtime_session_create_with_device,
      iree_runtime_session_append_bytecode_module_from_file,
      iree_runtime_session_release, iree_hal_device_release,
      iree_runtime_instance_release, iree_status_fprint_stderr,
      iree_status_ignore, iree_status_code, main_world, main_chain, main_ops,
      progress, first_failure_status, World.start, mul_chain, mul_world,
      mul_ops]

/-- The status `iree_runtime_demo_perform_mul` returns. -/
theorem perform_mul_status_eq (env : Env) (s : Handle) (w : World) :
    (run_perform_mul env s w).1 = first_failure_status env mul_chain := by
  simp [run_perform_mul, perform_mul_eq]

/-- The world `iree_runtime_demo_perform_mul` leaves. -/
theorem perform_mul_world_eq (env : Env) (s : Handle) (w : World) :
    (run_perform_mul env s w).2 = mul_world env w (progress env mul_chain) := by
  simp [run_perform_mul, perform_mul_eq]

/-- The calls `iree_runtime_demo_perform_mul` executes. -/
theorem perform_mul_calls_eq (env : Env) (s : Handle) (w : World) :
    perform_mul_calls env s w = mul_ops (progress env mul_chain) := by
  simp only [perform_mul_calls, perform_mul_world_eq, mul_world]
  split
  · next h => simp [h]
  · simp

/-- The input queues `iree_runtime_demo_perform_mul` invokes with. -/
theorem perform_mul_invocations_eq (env : Env) (s : Handle) (w : World) :
    perform_mul_invocations env s w =
      if 5 ≤ progress env mul_chain then [[lhs_view, rhs_view]] else [] := by
  simp only [perform_mul_invocations, perform_mul_world_eq, mul_world]
  split
  · next h => simp [h]
  · simp

/-- The allocation requests `iree_runtime_demo_perform_mul` makes. -/
theorem perform_mul_requests_eq (env : Env) (s : Handle) (w : World) :
    perform_mul_requests env s w =
      if progress env mul_chain = 0 then []
      else lhs_request ::
        (if 3 ≤ progress env mul_chain then [rhs_request] else []) := by
  simp only [perform_mul_requests, perform_mul_world_eq, mul_world]
  split <;> simp

/-- The buffer views `iree_runtime_demo_perform_mul` creates, as they are
at return. -/
theorem perform_mul_created_eq (env : Env) (s : Handle) (w : World) :
    perform_mul_created env s w =
      (if 2 ≤ progress env mul_chain then [⟨lhs_view, 0⟩] else []) ++
      (if 4 ≤ progress env mul_chain then [⟨rhs_view, 0⟩] else []) ++
      (if 7 ≤ progress env mul_chain then [⟨env.output, 0⟩] else []) := by
  simp only [perform_mul_created, perform_mul_world_eq, mul_world]
  split
  · next h => simp [h]
  · simp

/-- A call that lies within the executed part of a chain is preceded only
by calls that succeeded. -/
theorem mem_through_first_failure (env : Env) (op : Op) (chain : List Op)
    (h : op ∈ through_first_failure env chain) :
    ∀ e ∈ chain.takeWhile (fun c => decide (c ≠ op)), env.status e = 0 := by
  induction chain with
  | nil => simp
  | cons c rest ih =>
    by_cases hc : c = op
    · simp [List.takeWhile, hc]
    · simp only [through_first_failure, List.mem_cons] at h
      rcases h with h | h
      · exact absurd h.symm hc
      · by_cases hs : env.status c = 0
        · simp only [hs, if_true] at h
          intro e he
          simp only [List.takeWhile, hc, ne_eq, not_false_eq_true, decide_True,
            List.mem_cons] at he
          rcases he with he | he
          · rw [he]; exact hs
          · exact ih h e he
        · simp [hs] at h

/-- Two environments that agree on a chain get equally far in it. -/
theorem progress_congr (env env' : Env) (chain : List Op)
    (h : ∀ op ∈ chain, env'.status op = env.status op) :
    progress env' chain = progress env chain := by
  induction chain with
  | nil => rfl
  | cons c rest ih =>
    simp only [progress, h c (List.mem_cons_self c rest)]
    rw [ih (fun op hop => h op (List.mem_cons_of_mem c hop))]

/-- Two environments that agree on a chain fail it with the same status. -/
theorem first_failure_status_congr (env env' : Env) (chain : List Op)
    (h : ∀ op ∈ chain, env'.status op = env.status op) :
    first_failure_status env' chain = first_failure_status env chain := by
  induction chain with
  | nil => rfl
  | cons c rest ih =>
    simp only [first_failure_status, h c (List.mem_cons_self c rest)]
    rw [ih (fun op hop => h op (List.mem_cons_of_mem c hop))]

/-! ## The claims -/

/-- C6: in `iree_runtime_demo_perform_mul` the output pop is executed if and
only if call initialization, both allocations, both pushes and the invoke all
succeeded; on every path where it is not executed the `result` handle is NULL
at return (or, when initialization failed, was never declared and is left as
it was), the result buffer view is not printed, and the returned status is
not OK. -/
theorem perform_mul_pop_iff_all_succeeded (env : Env) (s : Handle) (w : World) :
    (Op.call_outputs_pop_front_buffer_view ∈ perform_mul_calls env s w ↔
      (env.status .call_initialize_by_name = 0 ∧
       env.status (.buffer_view_allocate_buffer .lhs) = 0 ∧
       env.status (.buffer_view_allocate_buffer .rhs) = 0 ∧
       env.status (.call_inputs_push_back_buffer_view .lhs) = 0 ∧
       env.status (.call_inputs_push_back_buffer_view .rhs) = 0 ∧
       env.status .call_invoke = 0)) ∧
    (Op.call_outputs_pop_front_buffer_view ∉ perform_mul_calls env s w →
      ((run_perform_mul env s w).2.result =
          if env.status .call_initialize_by_name = 0 then none else w.result) ∧
      Op.buffer_view_fprint .result ∉ perform_mul_calls env s w ∧
      (run_perform_mul env s w).1 ≠ 0) := by
  rw [perform_mul_calls_eq, perform_mul_world_eq, perform_mul_status_eq]
  apply perform_mul_cases env <;> intros <;>
  simp [*, progress, mul_chain, mul_ops, mul_world, first_failure_status]

/-- C5: reference counts balance in `iree_runtime_demo_perform_mul`.  After a
successful call initialization and for every combination of outcomes of the
later calls: no release is applied to a buffer view whose count is already
zero, the buffer views that existed before are untouched, every buffer view
the function created has reference count zero at return, and those are
exactly the views held by `lhs`, `rhs` and `result`. -/
theorem perform_mul_refcounts_balanced (env : Env) (s : Handle) (w : World)
    (hinit : env.status .call_initialize_by_name = 0) :
    (run_perform_mul env s w).2.over_release = w.over_release ∧
    (run_perform_mul env s w).2.heap.take w.heap.length = w.heap ∧
    (∀ c ∈ perform_mul_created env s w, c.refcount = 0) ∧
    (perform_mul_created env s w).length =
      ([Var.lhs, Var.rhs, Var.result].filter fun v =>
        ((run_perform_mul env s w).2.getVar v).isSome).length ∧
    (∀ v id, (run_perform_mul env s w).2.getVar v = some id →
      w.heap.length ≤ id ∧
      heap_alive (run_perform_mul env s w).2.heap id = false ∧
      (heap_view (run_perform_mul env s w).2.heap id).isSome = true) := by
  rw [perform_mul_created_eq, perform_mul_world_eq]
  apply perform_mul_cases env <;> intros
  case h0 => contradiction
  all_goals
    refine ⟨?_, ?_, ?_, ?_, ?_⟩
    iterate 4 simp [*, progress, mul_chain, mul_world, World.getVar]
    intro v id
    cases v <;>
    simp [*, progress, mul_chain, mul_world, World.getVar] <;>
    rintro rfl <;> simp

/-- C5 at a concrete input: every call succeeds, from process start. -/
theorem perform_mul_refcounts_balanced_witness :
    all_ok.status .call_initialize_by_name = 0 ∧
    (run_perform_mul all_ok Handle.live World.start).2.over_release =
      World.start.over_release ∧
    (run_perform_mul all_ok Handle.live World.start).2.heap.take
      World.start.heap.length = World.start.heap ∧
    (∀ c ∈ perform_mul_created all_ok Handle.live World.start,
      c.refcount = 0) ∧
    (perform_mul_created all_ok Handle.live World.start).length =
      ([Var.lhs, Var.rhs, Var.result].filter fun v =>
        ((run_perform_mul all_ok Handle.live World.start).2.getVar v).isSome).length ∧
    (∀ v id,
      (run_perform_mul all_ok Handle.live World.start).2.getVar v = some id →
      World.start.heap.length ≤ id ∧
      heap_alive (run_perform_mul all_ok Handle.live World.start).2.heap id
        = false ∧
      (heap_view (run_perform_mul all_ok Handle.live World.start).2.heap
        id).isSome = true) :=
  ⟨rfl, perform_mul_refcounts_balanced all_ok Handle.live World.start rfl⟩

/-- C7: whenever `iree_runtime_demo_perform_mul` executes the invoke, the
input queue of the Call holds exactly two buffer views, first `lhs` (shape
[4], float32, data 1.0, 1.1, 1.2, 1.3) and then `rhs` (shape [4], float32,
data 10.0, 100.0, 1000.0, 10000.0); every executed invoke is one of the
noted invocations, the invoke is executed exactly when the call
initialization, both allocations and both pushes succeeded, and then the
pushes and the invoke were executed in the order push lhs, push rhs,
invoke. -/
theorem perform_mul_invoke_inputs (env : Env) (s : Handle) (w : World) :
    (∀ q ∈ perform_mul_invocations env s w,
      q = [⟨[4], .FLOAT_32, [1.0, 1.1, 1.2, 1.3]⟩,
           ⟨[4], .FLOAT_32, [10.0, 100.0, 1000.0, 10000.0]⟩]) ∧
    (perform_mul_invocations env s w).length =
      (perform_mul_calls env s w).count .call_invoke ∧
    (Op.call_invoke ∈ perform_mul_calls env s w ↔
      (env.status .call_initialize_by_name = 0 ∧
       env.status (.buffer_view_allocate_buffer .lhs) = 0 ∧
       env.status (.call_inputs_push_back_buffer_view .lhs) = 0 ∧
       env.status (.buffer_view_allocate_buffer .rhs) = 0 ∧
       env.status (.call_inputs_push_back_buffer_view .rhs) = 0)) ∧
    (Op.call_invoke ∈ perform_mul_calls env s w →
      (perform_mul_calls env s w).filter
          (fun op => is_push op || decide (op = .call_invoke)) =
        [.call_inputs_push_back_buffer_view .lhs,
         .call_inputs_push_back_buffer_view .rhs, .call_invoke]) := by
  rw [perform_mul_calls_eq, perform_mul_invocations_eq]
  have hl : lhs_view = ⟨[4], .FLOAT_32, [1.0, 1.1, 1.2, 1.3]⟩ := rfl
  have hr : rhs_view = ⟨[4], .FLOAT_32, [10.0, 100.0, 1000.0, 10000.0]⟩ := rfl
  rw [hl, hr]
  apply perform_mul_cases env <;> intros <;>
  simp [*, progress, mul_chain, mul_ops, is_push]

/-- C9: for both buffer-view allocations of `iree_runtime_demo_perform_mul`
the byte length of the initial-data span (16) equals the product of the shape
dimensions (4) times the byte width of the float32 element type (4), so the
size check of the allocator passes; the requests made are those of the
executed allocation calls. -/
theorem perform_mul_alloc_sizes_match (env : Env) (s : Handle) (w : World) :
    (∀ r ∈ perform_mul_requests env s w,
      r.initial_data.data_length = 16 ∧ r.shape.prod = 4 ∧
      r.element_type = .FLOAT_32 ∧
      iree_hal_element_dense_byte_count r.element_type = 4 ∧
      r.initial_data.data_length =
        r.shape.prod * iree_hal_element_dense_byte_count r.element_type ∧
      r.size_matches = true) ∧
    (perform_mul_requests env s w).length =
      (perform_mul_calls env s w).countP is_allocation ∧
    (env.status .call_initialize_by_name = 0 ∧
      env.status (.buffer_view_allocate_buffer .lhs) = 0 ∧
      env.status (.call_inputs_push_back_buffer_view .lhs) = 0 →
      perform_mul_requests env s w = [lhs_request, rhs_request]) := by
  rw [perform_mul_calls_eq, perform_mul_requests_eq]
  apply perform_mul_cases env <;> intros <;>
  simp [*, progress, mul_chain, mul_ops, is_allocation, lhs_request,
    rhs_request, lhs_shape, rhs_shape, AllocRequest.size_matches,
    iree_hal_element_dense_byte_count, iree_hal_element_bit_count]

/-- C8: in every execution of `iree_runtime_demo_perform_mul` the calls
applied to the Call are a legal path of the Call state machine, ending in
`Deinitialized` when the initialization succeeded and in `Uninitialized` when
it failed; no push, invoke, pop or deinitialize is applied to a Call whose
initialization failed; no input is pushed after the invoke; the invoke is
executed at most once; and when the initialization succeeded the
deinitialize is executed exactly once and is the last operation on the
Call. -/
theorem perform_mul_call_state_machine (env : Env) (s : Handle) (w : World) :
    call_run env .Uninitialized (perform_mul_calls env s w) =
      some (if env.status .call_initialize_by_name = 0 then .Deinitialized
            else .Uninitialized) ∧
    (env.status .call_initialize_by_name ≠ 0 →
      (perform_mul_calls env s w).filter is_call_op =
        [.call_initialize_by_name]) ∧
    ((perform_mul_calls env s w).dropWhile
        (fun op => decide (op ≠ .call_invoke))).countP is_push = 0 ∧
    (perform_mul_calls env s w).count .call_invoke ≤ 1 ∧
    (env.status .call_initialize_by_name = 0 →
      (perform_mul_calls env s w).count .call_deinit = 1 ∧
      ((perform_mul_calls env s w).filter is_call_op).getLast? =
        some .call_deinit) := by
  rw [perform_mul_calls_eq]
  apply perform_mul_cases env <;> intros <;>
  simp [*, progress, mul_chain, mul_ops, is_push, is_call_op, call_run,
    call_step, List.dropWhile, List.getLast?]

/-- C10: in `iree_runtime_demo_perform_mul` the outcome of printing `lhs` or
`rhs` never influences the result: two environments that agree on every call
but those two prints execute the same runtime calls and return the same
status; by contrast, when every earlier call of the chain succeeded, the
status of printing the result buffer view is the status returned. -/
theorem perform_mul_input_print_irrelevant (env env' : Env) (s : Handle)
    (w : World)
    (hsame : ∀ op, op ≠ .buffer_view_fprint .lhs →
      op ≠ .buffer_view_fprint .rhs → env'.status op = env.status op) :
    (run_perform_mul env' s w).1 = (run_perform_mul env s w).1 ∧
    (run_perform_mul env' s w).2.trace = (run_perform_mul env s w).2.trace ∧
    ((∀ op ∈ mul_chain.take 7, env.status op = 0) →
      (run_perform_mul env s w).1 = env.status (.buffer_view_fprint .result) ∧
      Op.buffer_view_fprint .result ∈ perform_mul_calls env s w) := by
  have hchain : ∀ op ∈ mul_chain, env'.status op = env.status op := by
    intro op hop
    apply hsame op <;> rintro rfl <;> simp [mul_chain] at hop
  refine ⟨?_, ?_, ?_⟩
  · rw [perform_mul_status_eq, perform_mul_status_eq,
      first_failure_status_congr env env' mul_chain hchain]
  · rw [perform_mul_world_eq, perform_mul_world_eq,
      progress_congr env env' mul_chain hchain]
    simp only [mul_world]
    split <;> rfl
  · rw [perform_mul_status_eq, perform_mul_calls_eq]
    intro h
    simp only [mul_chain, List.take, List.mem_cons, List.mem_nil_iff,
      or_false, forall_eq_or_imp, forall_eq] at h
    obtain ⟨h1, h2, h3, h4, h5, h6, h7⟩ := h
    by_cases h8 : env.status (.buffer_view_fprint .result) = 0 <;>
    simp [*, progress, mul_chain, mul_ops, first_failure_status]

/-- C10 at a concrete input: all calls succeed in one environment, printing
`lhs` fails in the other. -/
theorem perform_mul_input_print_irrelevant_witness :
    (∀ op, op ≠ .buffer_view_fprint .lhs → op ≠ .buffer_view_fprint .rhs →
      lhs_print_fails.status op = all_ok.status op) ∧
    (run_perform_mul lhs_print_fails Handle.live World.start).1 =
      (run_perform_mul all_ok Handle.live World.start).1 ∧
    (run_perform_mul lhs_print_fails Handle.live World.start).2.trace =
      (run_perform_mul all_ok Handle.live World.start).2.trace ∧
    ((∀ op ∈ mul_chain.take 7, all_ok.status op = 0) →
      (run_perform_mul all_ok Handle.live World.start).1 =
        all_ok.status (.buffer_view_fprint .result) ∧
      Op.buffer_view_fprint .result ∈
        perform_mul_calls all_ok Handle.live World.start) :=
  have h : ∀ op, op ≠ .buffer_view_fprint .lhs →
      op ≠ .buffer_view_fprint .rhs →
      lhs_print_fails.status op = all_ok.status op := by
    intro op h1 _
    simp [lhs_print_fails, all_ok, h1]
  ⟨h, perform_mul_input_print_irrelevant all_ok lhs_print_fails Handle.live
    World.start h⟩

/-- C1: for every run of `main` that passes the argument check and for every
combination of outcomes, the value `main` returns is the status code of the
first failure in the chain instance create, device create, session create,
module append, `iree_runtime_demo_perform_mul` (whose status does not depend
on the world it runs in), and is 0 exactly when all five succeeded; the
status diagnostic is written to stderr exactly when the returned code is not
0, and is then all that stderr holds. -/
theorem main_returns_first_failure_status (env : Env) (argc : Int)
    (argv : List String) (hargs : 2 ≤ argc) (session : Handle) (w : World) :
    (run_main env argc argv).1 =
      ((first_failed
        [env.status .instance_create, env.status .hal_create_device,
         env.status .session_create_with_device,
         env.status .session_append_bytecode_module_from_file,
         (run_perform_mul env session w).1] : Nat) : Int) ∧
    ((run_main env argc argv).1 = 0 ↔
      (env.status .instance_create = 0 ∧ env.status .hal_create_device = 0 ∧
       env.status .session_create_with_device = 0 ∧
       env.status .session_append_bytecode_module_from_file = 0 ∧
       (run_perform_mul env session w).1 = 0)) ∧
    (Op.status_fprint ∈ (run_main env argc argv).2.trace ↔
      (run_main env argc argv).1 ≠ 0) ∧
    (run_main env argc argv).2.stderr =
      (if (run_main env argc argv).1 = 0 then []
       else [Output.status (run_main env argc argv).1.toNat]) := by
  rw [run_main_eq env argc argv (by omega), perform_mul_status_eq]
  apply main_cases env <;> intros
  case h4 =>
    apply perform_mul_cases env <;> intros <;>
    simp [*, first_failed, first_failure_status, main_chain, mul_chain,
      main_world, main_ops, progress, mul_world, mul_ops, World.start]
  all_goals
    simp [*, first_failed, first_failure_status, main_chain, mul_chain,
      main_world, main_ops, progress, mul_world, mul_ops, World.start]

/-- C1 at a concrete input: two positional arguments, the device creation
fails with status 5. -/
theorem main_returns_first_failure_status_witness :
    (2 : Int) ≤ 3 ∧
    ((run_main device_create_fails 3 demo_argv).1 =
      ((first_failed
        [device_create_fails.status .instance_create,
         device_create_fails.status .hal_create_device,
         device_create_fails.status .session_create_with_device,
         device_create_fails.status .session_append_bytecode_module_from_file,
         (run_perform_mul device_create_fails Handle.live World.start).1] :
          Nat) : Int) ∧
    ((run_main device_create_fails 3 demo_argv).1 = 0 ↔
      (device_create_fails.status .instance_create = 0 ∧
       device_create_fails.status .hal_create_device = 0 ∧
       device_create_fails.status .session_create_with_device = 0 ∧
       device_create_fails.status .session_append_bytecode_module_from_file
         = 0 ∧
       (run_perform_mul device_create_fails Handle.live World.start).1 = 0)) ∧
    (Op.status_fprint ∈ (run_main device_create_fails 3 demo_argv).2.trace ↔
      (run_main device_create_fails 3 demo_argv).1 ≠ 0) ∧
    (run_main device_create_fails 3 demo_argv).2.stderr =
      (if (run_main device_create_fails 3 demo_argv).1 = 0 then []
       else [Output.status (run_main device_create_fails 3 demo_argv).1.toNat])) :=
  ⟨by decide,
    main_returns_first_failure_status device_create_fails 3 demo_argv
      (by decide) Handle.live World.start⟩

/-- C3: short-circuiting.  For every run of `main` that passes the argument
check and every combination of outcomes, the calls of the sequence instance
create, device create, session create, module append, call initialize,
allocate lhs, push lhs, allocate rhs, push rhs, invoke, pop output, print
result that are executed are exactly those up to and including the first
one that fails, in order and once each; so a call of the sequence is
executed only if every earlier one succeeded, and the status `main` ends
with is the status of that first failure. -/
theorem main_short_circuits (env : Env) (argc : Int) (argv : List String)
    (hargs : 2 ≤ argc) :
    (run_main env argc argv).2.trace.filter (fun op => decide (op ∈ call_chain))
      = through_first_failure env call_chain ∧
    (∀ op ∈ (run_main env argc argv).2.trace, op ∈ call_chain →
      ∀ e ∈ call_chain.takeWhile (fun c => decide (c ≠ op)),
        env.status e = 0) ∧
    (run_main env argc argv).1 =
      ((first_failure_status env call_chain : Nat) : Int) := by
  have hfilter : (run_main env argc argv).2.trace.filter
      (fun op => decide (op ∈ call_chain))
      = through_first_failure env call_chain := by
    rw [run_main_eq env argc argv (by omega)]
    apply main_cases env <;> intros
    case h4 =>
      apply perform_mul_cases env <;> intros <;>
      simp [*, call_chain, through_first_failure, main_chain, mul_chain,
        main_world, main_ops, progress, mul_world, mul_ops, World.start,
        first_failure_status, List.filter]
    all_goals
      simp [*, call_chain, through_first_failure, main_chain, mul_chain,
        main_world, main_ops, progress, mul_world, mul_ops, World.start,
        first_failure_status, List.filter]
  refine ⟨hfilter, ?_, ?_⟩
  · intro op hop hchain
    apply mem_through_first_failure
    rw [← hfilter]
    simp [List.mem_filter, hop, hchain]
  · rw [run_main_eq env argc argv (by omega)]
    rfl

/-- C3 at a concrete input: the push of `rhs` fails with status 9. -/
theorem main_short_circuits_witness :
    (2 : Int) ≤ 3 ∧
    ((run_main rhs_push_fails 3 demo_argv).2.trace.filter
        (fun op => decide (op ∈ call_chain))
      = through_first_failure rhs_push_fails call_chain ∧
    (∀ op ∈ (run_main rhs_push_fails 3 demo_argv).2.trace, op ∈ call_chain →
      ∀ e ∈ call_chain.takeWhile (fun c => decide (c ≠ op)),
        rhs_push_fails.status e = 0) ∧
    (run_main rhs_push_fails 3 demo_argv).1 =
      ((first_failure_status rhs_push_fails call_chain : Nat) : Int)) :=
  ⟨by decide, main_short_circuits rhs_push_fails 3 demo_argv (by decide)⟩

/-- C4: for every run of `main` that passes the argument check, whatever the
outcomes, the session release, the device release and the instance release
are each executed exactly once, in that order, each applied to the pointer
`main` holds (the object its create call made, NULL only when that creation
failed or was skipped); from the session release on no other call works on
the session, the device, the instance or anything obtained from them; and at
the end every reference `main` acquired on the three objects has been given
back, none of them twice. -/
theorem main_releases_in_reverse_order (env : Env) (argc : Int)
    (argv : List String) (hargs : 2 ≤ argc) :
    (run_main env argc argv).2.trace.filter is_lifetime_release =
      [.session_release (held_session env),
       .hal_device_release (held_device env),
       .instance_release (held_instance env)] ∧
    ((run_main env argc argv).2.trace.dropWhile
        (fun op => !is_session_release op)).filter on_runtime_object =
      [.session_release (held_session env),
       .hal_device_release (held_device env),
       .instance_release (held_instance env)] ∧
    (held_session env = .live ↔
      (Op.session_create_with_device ∈ (run_main env argc argv).2.trace ∧
        env.status .session_create_with_device = 0)) ∧
    (held_device env = .live ↔
      (Op.hal_create_device ∈ (run_main env argc argv).2.trace ∧
        env.status .hal_create_device = 0)) ∧
    (held_instance env = .live ↔
      (Op.instance_create ∈ (run_main env argc argv).2.trace ∧
        env.status .instance_create = 0)) ∧
    (run_main env argc argv).2.session_refs = 0 ∧
    (run_main env argc argv).2.device_refs = 0 ∧
    (run_main env argc argv).2.instance_refs = 0 ∧
    (run_main env argc argv).2.lifetime_over_release = false := by
  rw [run_main_eq env argc argv (by omega)]
  apply main_cases env <;> intros
  case h4 =>
    apply perform_mul_cases env <;> intros <;>
    simp [*, main_chain, mul_chain, main_world, main_ops, progress,
      mul_world, mul_ops, World.start, first_failure_status, List.filter,
      List.dropWhile, is_lifetime_release, on_runtime_object,
      is_session_release, held_session, held_device, held_instance]
  all_goals
    simp [*, main_chain, mul_chain, main_world, main_ops, progress,
      mul_world, mul_ops, World.start, first_failure_status, List.filter,
      List.dropWhile, is_lifetime_release, on_runtime_object,
      is_session_release, held_session, held_device, held_instance]

/-- C4 at a concrete input: the session creation fails with status 7, so the
session release is handed NULL and the other two a live object. -/
theorem main_releases_in_reverse_order_witness :
    (2 : Int) ≤ 3 ∧
    ((run_main session_create_fails 3 demo_argv).2.trace.filter
        is_lifetime_release =
      [.session_release (held_session session_create_fails),
       .hal_device_release (held_device session_create_fails),
       .instance_release (held_instance session_create_fails)] ∧
    ((run_main session_create_fails 3 demo_argv).2.trace.dropWhile
        (fun op => !is_session_release op)).filter on_runtime_object =
      [.session_release (held_session session_create_fails),
       .hal_device_release (held_device session_create_fails),
       .instance_release (held_instance session_create_fails)] ∧
    (held_session session_create_fails = .live ↔
      (Op.session_create_with_device ∈
          (run_main session_create_fails 3 demo_argv).2.trace ∧
        session_create_fails.status .session_create_with_device = 0)) ∧
    (held_device session_create_fails = .live ↔
      (Op.hal_create_device ∈
          (run_main session_create_fails 3 demo_argv).2.trace ∧
        session_create_fails.status .hal_create_device = 0)) ∧
    (held_instance session_create_fails = .live ↔
      (Op.instance_create ∈
          (run_main session_create_fails 3 demo_argv).2.trace ∧
        session_create_fails.status .instance_create = 0)) ∧
    (run_main session_create_fails 3 demo_argv).2.session_refs = 0 ∧
    (run_main session_create_fails 3 demo_argv).2.device_refs = 0 ∧
    (run_main session_create_fails 3 demo_argv).2.instance_refs = 0 ∧
    (run_main session_create_fails 3 demo_argv).2.lifetime_over_release
      = false) :=
  ⟨by decide,
    main_releases_in_reverse_order session_create_fails 3 demo_argv
      (by decide)⟩

/-- C2, the code at the failing input: with the device selector as the only
positional argument (`argc = 2`) the argument check passes: whatever the
outcomes, no usage message is printed and the instance is created; the
module path is read from `argv[2]`, which is NULL, and handed to the module
loader; when every call succeeds `main` returns 0, not 1.  The check only
stops `argc < 2`, where the usage message is printed, 1 is returned and no
runtime call is made. -/
theorem main_accepts_missing_module_path :
    (∀ env : Env,
      Output.text "usage: hello_world device module.vmfb\n" ∉
        (run_main env 2 ["hello_world", "local-sync"]).2.stderr ∧
      Op.instance_create ∈
        (run_main env 2 ["hello_world", "local-sync"]).2.trace) ∧
    (run_main all_ok 2 ["hello_world", "local-sync"]).2.module_paths =
      [none] ∧
    Op.session_append_bytecode_module_from_file ∈
      (run_main all_ok 2 ["hello_world", "local-sync"]).2.trace ∧
    (run_main all_ok 2 ["hello_world", "local-sync"]).1 = 0 ∧
    (∀ (env : Env) (argc : Int) (argv : List String), argc < 2 →
      run_main env argc argv =
        (1, { World.start with stderr :=
          [Output.text "usage: hello_world device module.vmfb\n"] })) := by
  refine ⟨?_, ?_, ?_, ?_, ?_⟩
  · intro env
    rw [run_main_eq env 2 _ (by decide)]
    apply main_cases env <;> intros
    case h4 =>
      apply perform_mul_cases env <;> intros <;>
      simp [*, main_chain, mul_chain, main_world, main_ops, progress,
        mul_world, mul_ops, World.start, first_failure_status]
    all_goals
      simp [*, main_chain, mul_chain, main_world, main_ops, progress,
        mul_world, mul_ops, World.start, first_failure_status]
  · rw [run_main_eq all_ok 2 _ (by decide)]
    simp [all_ok, main_chain, mul_chain, main_world, main_ops, progress,
      mul_world, mul_ops, World.start, first_failure_status]
  · rw [run_main_eq all_ok 2 _ (by decide)]
    simp [all_ok, main_chain, mul_chain, main_world, main_ops, progress,
      mul_world, mul_ops, World.start, first_failure_status]
  · rw [run_main_eq all_ok 2 _ (by decide)]
    simp [all_ok, main_chain, mul_chain, first_failure_status]
  · intro env argc argv h
    simp [run_main, main, h, fprintf_stderr, bind, StateT.bind, pure,
      StateT.pure, modify, modifyGet, MonadStateOf.modifyGet,
      StateT.modifyGet, World.start]

end HelloWorld
